import Mathlib

/-!
Verification of the visca_srt gateway (srt_example repository).

Shallow embedding of the wire codec (src/include/visca_srt_common.hpp and
src/include/ndi_tally_common.hpp), the client-side framing
(src/visca_srt_client.cpp), and the server-side tally translator, lock
usage and message routing (src/visca_srt_server.cpp).

Bytes are modelled as `Nat` values; the C++ fixed-width stores
(`uint8_t`, `uint16_t`, `uint32_t`) are mirrored with explicit `% 256`,
`% 65536`, division-based byte extraction at the points where the source
truncates. Fallible C++ code (functions that throw `ViscaSrtException`)
is modelled with `Except`; the outcomes of socket system calls (`send`,
`recv`) and of the monotonic clock are passed in as explicit parameters.
-/

namespace ViscaSrt

/-- Error outcomes of frame decoding. The source throws a single
`ViscaSrtException` carrying a message; the two messages of the
deserializers ("Message too short for header" / "Message data incomplete",
and the NDI analogues) are the truncation failures, and the default branch
of the protocol-tag switch in `ViscaSrtServer::handle_srt_client` (which
logs "Unknown protocol type" and drops the datagram) is the unknown-tag
failure. -/
inductive ViscaSrtError where
  | truncated
  | unknownTag
deriving DecidableEq

/-- VISCA message over SRT: struct `ViscaMessage` of
src/include/visca_srt_common.hpp lines 45-54. The `protocol_type` field is
fixed to `MessageType::VISCA = 0x01` by the constructor and `deserialize`
always restores that constant, so it is not a field here; `serialize`
writes the literal tag byte. Field widths in the source: `type`,
`camera_id` are `uint8_t`; `sequence`, `length` are `uint16_t`; `data` is
a byte vector. -/
structure ViscaMessage where
  type : Nat
  camera_id : Nat
  sequence : Nat
  length : Nat
  data : List Nat
deriving DecidableEq

/-- `ViscaMessage::serialize` (visca_srt_common.hpp lines 57-66): the tag
byte, the type byte, the camera id, the big-endian `uint16_t` sequence
(`htons` store), the big-endian `uint16_t` length, then all payload bytes.
The buffer size is `data.size() + 7`. -/
def ViscaMessage.serialize (m : ViscaMessage) : List Nat :=
  1 :: m.type % 256 :: m.camera_id % 256 ::
    m.sequence / 256 % 256 :: m.sequence % 256 ::
    m.length / 256 % 256 :: m.length % 256 :: m.data

/-- `ViscaMessage::deserialize` (visca_srt_common.hpp lines 69-87): checks
`buffer.size() < 7`, reads type, camera id, sequence and length from the
fixed offsets 1..6 (`ntohs` for the 16-bit fields), checks
`buffer.size() < length + 7`, then copies `length` payload bytes starting
at offset 7. Byte 0 is skipped; `protocol_type` is restored to the VISCA
constant unconditionally. -/
def ViscaMessage.deserialize (buffer : List Nat) : Except ViscaSrtError ViscaMessage :=
  if buffer.length < 7 then .error .truncated
  else if buffer.length < (buffer.getD 5 0 * 256 + buffer.getD 6 0) + 7 then .error .truncated
  else .ok
    { type := buffer.getD 1 0
      camera_id := buffer.getD 2 0
      sequence := buffer.getD 3 0 * 256 + buffer.getD 4 0
      length := buffer.getD 5 0 * 256 + buffer.getD 6 0
      data := (buffer.drop 7).take (buffer.getD 5 0 * 256 + buffer.getD 6 0) }

/-- A VISCA message as the C++ type system constrains it: the fields fit
their declared widths, the length field equals the payload size (the valid
messages of the round-trip law), and the payload is made of bytes. -/
def ViscaMessage.Valid (m : ViscaMessage) : Prop :=
  m.type < 256 ∧ m.camera_id < 256 ∧ m.sequence < 65536 ∧ m.length < 65536 ∧
    m.length = m.data.length ∧ ∀ b ∈ m.data, b < 256

instance (m : ViscaMessage) : Decidable m.Valid := by
  unfold ViscaMessage.Valid; infer_instance

/-- NDI tally message: struct `NdiTallyMessage` of
src/include/ndi_tally_common.hpp lines 18-25. As for `ViscaMessage`, the
constant `protocol_type = MessageType::NDI_TALLY = 0x02` is not a field.
`state` is a `uint8_t`-backed enum, `timestamp` a `uint32_t`, the source
name a byte string. -/
structure NdiTallyMessage where
  state : Nat
  timestamp : Nat
  ndi_source_name : List Nat
deriving DecidableEq

/-- `NdiTallyMessage::serialize` (ndi_tally_common.hpp lines 28-48): tag
byte, state byte, `name_length` truncated to `uint8_t`, the four
big-endian timestamp bytes, then the name bytes. -/
def NdiTallyMessage.serialize (m : NdiTallyMessage) : List Nat :=
  2 :: m.state % 256 :: m.ndi_source_name.length % 256 ::
    m.timestamp / 16777216 % 256 :: m.timestamp / 65536 % 256 ::
    m.timestamp / 256 % 256 :: m.timestamp % 256 :: m.ndi_source_name

/-- `NdiTallyMessage::deserialize` (ndi_tally_common.hpp lines 51-74):
checks `buffer.size() < 7`, reads state and name length from offsets 1 and
2, reassembles the big-endian timestamp from offsets 3..6, checks
`buffer.size() < 7 + name_length`, then copies the name bytes from offset
7. -/
def NdiTallyMessage.deserialize (buffer : List Nat) : Except ViscaSrtError NdiTallyMessage :=
  if buffer.length < 7 then .error .truncated
  else if buffer.length < 7 + buffer.getD 2 0 then .error .truncated
  else .ok
    { state := buffer.getD 1 0
      timestamp := buffer.getD 3 0 * 16777216 + buffer.getD 4 0 * 65536 +
        buffer.getD 5 0 * 256 + buffer.getD 6 0
      ndi_source_name := (buffer.drop 7).take (buffer.getD 2 0) }

/-- An NDI tally message as the C++ type system constrains it, with a
source name of at most 255 bytes (the valid messages of the round-trip
law; longer names are truncated by the `uint8_t` store of the length). -/
def NdiTallyMessage.Valid (m : NdiTallyMessage) : Prop :=
  m.state < 256 ∧ m.timestamp < 4294967296 ∧ m.ndi_source_name.length ≤ 255 ∧
    ∀ b ∈ m.ndi_source_name, b < 256

instance (m : NdiTallyMessage) : Decidable m.Valid := by
  unfold NdiTallyMessage.Valid; infer_instance

/-- A decoded SRT datagram, one of the two wire message kinds. -/
inductive Frame where
  | visca (msg : ViscaMessage)
  | ndiTally (msg : NdiTallyMessage)
deriving DecidableEq

/-- The receive-side dispatch of `ViscaSrtServer::handle_srt_client`
(visca_srt_server.cpp lines 176-207): switch on the first byte of the
datagram; for `MessageType::VISCA = 0x01` and `MessageType::NDI_TALLY =
0x02` the tag byte is removed (`buffer.erase(buffer.begin())`) and the
remainder is handed to the respective deserializer; any other first byte
hits the default branch, which reports the unknown protocol type and
drops the datagram. The server only reaches this dispatch when
`received > 0`, so the empty case below is never exercised. -/
def decode_frame (buffer : List Nat) : Except ViscaSrtError Frame :=
  match buffer with
  | [] => .error .truncated
  | tag :: rest =>
    if tag = 1 then (ViscaMessage.deserialize rest).map .visca
    else if tag = 2 then (NdiTallyMessage.deserialize rest).map .ndiTally
    else .error .unknownTag

/-- `ViscaSrtClient::send_visca_command` (visca_srt_client.cpp lines
77-85): the buffer the client actually sends over SRT. It is
`data.size() + 5` bytes: camera id at offset 0, big-endian sequence at
1..2, big-endian length at 3..4, payload from offset 5. The protocol tag
byte and the visca type byte that `ViscaMessage::serialize` would write
are absent, and `msg.type` is never read. -/
def send_visca_command_buffer (msg : ViscaMessage) : List Nat :=
  msg.camera_id % 256 :: msg.sequence / 256 % 256 :: msg.sequence % 256 ::
    msg.length / 256 % 256 :: msg.length % 256 :: msg.data

/-- The message `ViscaSrtClient::monitor_endpoints` builds when payload
bytes `P` arrive from the controller endpoint with the given camera id
(visca_srt_client.cpp lines 107-118): `sequence = ++sequence_counter`
(`uint16_t` pre-increment of the shared counter), `length = received`.
The source leaves `msg.type` default-initialized and never assigns or
reads it; it is modelled as 0. -/
def monitor_endpoints_frame (cid seq_counter : Nat) (P : List Nat) : ViscaMessage :=
  { type := 0
    camera_id := cid
    sequence := (seq_counter + 1) % 65536
    length := P.length
    data := P }

/-- The SRT egress bytes the client emits for controller payload `P` on
the endpoint with the given camera id, with the given value of
`sequence_counter` before the send: `monitor_endpoints` composed with
`send_visca_command`. -/
def client_egress (cid seq_counter : Nat) (P : List Nat) : List Nat :=
  send_visca_command_buffer (monitor_endpoints_frame cid seq_counter P)

/-- Modelled from the spec, section 4.1: the VISCA wire frame the spec
prescribes for SRT datagrams (and which `ViscaMessage::serialize`
implements): protocol tag 0x01, visca type byte, camera id, big-endian
u16 sequence, big-endian u16 length, payload. Stated here for comparison
with the client egress buffer. -/
def specViscaWireFrame (t cid seq len : Nat) (payload : List Nat) : List Nat :=
  1 :: t :: cid :: seq / 256 % 256 :: seq % 256 ::
    len / 256 % 256 :: len % 256 :: payload

/-- NDI tally states: enum `TallyState` of ndi_tally_common.hpp lines
10-15, with byte values OFF = 0x00, PROGRAM = 0x01, PREVIEW = 0x02,
PROGRAM_PREVIEW = 0x03. -/
inductive TallyState where
  | off
  | program
  | preview
  | programPreview
deriving DecidableEq

/-- Struct `NdiCameraMapping` of ndi_tally_common.hpp lines 78-86: the
NDI source name, the camera id, the two enable flags (both defaulted to
true in the source), and the three raw VISCA byte sequences for the
program, preview and off transitions. -/
structure NdiCameraMapping where
  ndi_source_name : List Nat
  camera_id : Nat
  tally_program_enabled : Bool
  tally_preview_enabled : Bool
  program_tally_command : List Nat
  preview_tally_command : List Nat
  tally_off_command : List Nat
deriving DecidableEq

/-- The tally-relevant state of class `ViscaCamera`
(visca_srt_server.cpp lines 18-68): the connection flag, the NDI mapping,
the current tally state and the last update instant. The clock is
modelled as a `Nat` passed in at each step. -/
structure ViscaCamera where
  connected : Bool
  ndi_mapping : NdiCameraMapping
  current_tally_state : TallyState
  last_tally_update : Nat
deriving DecidableEq

/-- The `switch (state)` of `ViscaCamera::send_tally_command`
(visca_srt_server.cpp lines 36-47): PROGRAM and PREVIEW select their
respective command sequences; `case TallyState::OFF:` shares the
`default:` branch, so OFF and every other state — including
PROGRAM_PREVIEW — select the off command. -/
def tally_command_for (m : NdiCameraMapping) (state : TallyState) : List Nat :=
  match state with
  | .program => m.program_tally_command
  | .preview => m.preview_tally_command
  | _ => m.tally_off_command

/-- `ViscaCamera::send_tally_command` (visca_srt_server.cpp lines 32-59).
The externally determined outcomes are explicit: `send_ok` is whether the
`send` call on the TCP socket returns nonnegative, `now` the value
`steady_clock::now()` would produce. The result is the updated camera,
the boolean the C++ function returns, and the successful socket write,
recorded as the requested state paired with the bytes delivered (`none`
when nothing was delivered: not connected, empty command, or failed
send). -/
def send_tally_command (cam : ViscaCamera) (state : TallyState)
    (send_ok : Bool) (now : Nat) :
    ViscaCamera × Bool × Option (TallyState × List Nat) :=
  if !cam.connected then (cam, false, none)
  else if tally_command_for cam.ndi_mapping state = [] then (cam, false, none)
  else if !send_ok then ({ cam with connected := false }, false, none)
  else ({ cam with current_tally_state := state, last_tally_update := now },
    true, some (state, tally_command_for cam.ndi_mapping state))

/-- `ViscaCamera::update_tally_state` (visca_srt_server.cpp lines 62-67):
send only when the new state differs from the current one, otherwise
report success without touching the socket. -/
def update_tally_state (cam : ViscaCamera) (new_state : TallyState)
    (send_ok : Bool) (now : Nat) :
    ViscaCamera × Bool × Option (TallyState × List Nat) :=
  if new_state ≠ cam.current_tally_state then
    send_tally_command cam new_state send_ok now
  else (cam, true, none)

/-- A sequence of `update_tally_state` calls against one camera — the
calls the tally tick `ViscaSrtServer::handle_ndi_tally` makes on
successive ticks — collecting the successful socket writes in order.
Each event carries the looked-up tally state, the send outcome and the
clock value. -/
def run_tally : ViscaCamera → List (TallyState × Bool × Nat) →
    ViscaCamera × List (Option (TallyState × List Nat))
  | cam, [] => (cam, [])
  | cam, (s, ok, now) :: events =>
    let step := update_tally_state cam s ok now
    let rest := run_tally step.1 events
    (rest.1, step.2.2 :: rest.2)

/-- The state carried by the last successful write in a list of write
records, or the default when no write succeeded. -/
def last_sent_state : List (Option (TallyState × List Nat)) → TallyState → TallyState
  | [], dflt => dflt
  | none :: writes, dflt => last_sent_state writes dflt
  | some (s, _) :: writes, _ => last_sent_state writes s

/-- `ViscaSrtServer::process_visca_message` (visca_srt_server.cpp lines
421-451), as the SRT response frame it sends back to the client (`none`
when nothing is sent). `found` and `connected` reflect the
`cameras.find(msg.camera_id)` lookup, `send_ok` the send on the camera
socket, `reply` the bytes the bounded `recv` of the camera reply returned
(empty when `resp_size <= 0`). The source guards the reply path with a
comparison of `msg.type` against COMMAND and INQUIRY; in the VISCA
subtype encoding these are the values 0x01 and 0x03 (the outer
`MessageType` enum has no such members — see the conflation note in the
spec, section 9). -/
def process_visca_message (msg : ViscaMessage) (found connected send_ok : Bool)
    (reply : List Nat) : Option ViscaMessage :=
  if found ∧ connected then
    if !send_ok then none
    else if msg.type = 1 ∨ msg.type = 3 then
      if 0 < reply.length then
        some { type := 2
               camera_id := msg.camera_id
               sequence := msg.sequence
               length := reply.length
               data := reply }
      else none
    else none
  else none

/-- The message `ViscaSrtServer::monitor_cameras` queues when
`received > 0` bytes of asynchronous camera-originated data arrive
(visca_srt_server.cpp lines 278-288): `sequence` is set to 0 (the source
comment reads "Response message"). The local server `ViscaMessage` struct
(lines 71-76) has no type field; type is modelled as 0. -/
def monitor_cameras_frame (cid : Nat) (bytes : List Nat) : ViscaMessage :=
  { type := 0
    camera_id := cid
    sequence := 0
    length := bytes.length
    data := bytes }

/-- The three mutexes of `ViscaSrtServer`: `cameras_mutex`,
`ndi_tally_mutex_` (guarding the tally table `ndi_tally_states_`) and
`queues_mutex`. -/
inductive ServerLock where
  | cameras
  | tallyTable
  | queues
deriving DecidableEq

/-- The rank the spec assigns in its lock order
cameras before tally_table before queues (spec section 5). -/
def spec_lock_rank : ServerLock → Nat
  | .cameras => 0
  | .tallyTable => 1
  | .queues => 2

/-- The rank realised by the source: `handle_ndi_tally` nests
tally_table before cameras, `monitor_cameras` nests cameras before
queues, so the one consistent total order in the source is
tally_table before cameras before queues. -/
def source_lock_rank : ServerLock → Nat
  | .tallyTable => 0
  | .cameras => 1
  | .queues => 2

/-- The nested mutex-acquisition sequences of visca_srt_server.cpp, one
list per code path that takes a lock, in acquisition order:
`handle_ndi_tally` lines 98-99 (tally_table then cameras, both held
across the `update_tally_state` TCP writes); `process_ndi_tally_message`
line 115; `handle_srt_client` line 217; `monitor_cameras` lines 262 and
286 (cameras then queues); `process_visca_message` line 422; the two
sequential, non-nested scopes of `stop` at lines 470 and 483. -/
def server_lock_paths : List (List ServerLock) :=
  [[.tallyTable, .cameras],
   [.tallyTable],
   [.cameras],
   [.cameras, .queues],
   [.cameras],
   [.cameras],
   [.tallyTable]]

/-- C1: evaluated at the S1 scenario input (payload
81 01 06 01 0A 0A 03 01 FF arriving on the controller endpoint with
camera_id 3, first command, so sequence counter 0 before the send), the
SRT egress buffer the client builds is the 14-byte
03 00 01 00 09 81 01 06 01 0A 0A 03 01 FF — camera id, big-endian
sequence, big-endian length, payload — and not the 16-byte section 4.1
frame 01 01 03 00 01 00 09 81 01 06 01 0A 0A 03 01 FF the claim states:
the protocol tag byte and the visca type byte are missing. -/
theorem c1_client_egress_missing_tag_and_type :
    client_egress 3 0 [0x81, 0x01, 0x06, 0x01, 0x0A, 0x0A, 0x03, 0x01, 0xFF] =
      [0x03, 0x00, 0x01, 0x00, 0x09,
        0x81, 0x01, 0x06, 0x01, 0x0A, 0x0A, 0x03, 0x01, 0xFF] ∧
    client_egress 3 0 [0x81, 0x01, 0x06, 0x01, 0x0A, 0x0A, 0x03, 0x01, 0xFF] ≠
      specViscaWireFrame 1 3 1 9 [0x81, 0x01, 0x06, 0x01, 0x0A, 0x0A, 0x03, 0x01, 0xFF] := by
  decide

/-- C2: codec round trip. For every VISCA message whose fields fit their
widths and whose length field equals its payload size, and every NDI
tally message whose fields fit their widths and whose source name is at
most 255 bytes, deserializing the serialized bytes yields the original
message. -/
theorem c2_codec_round_trip :
    (∀ m : ViscaMessage, m.Valid →
      ViscaMessage.deserialize m.serialize = .ok m) ∧
    (∀ m : NdiTallyMessage, m.Valid →
      NdiTallyMessage.deserialize m.serialize = .ok m) := by
  constructor
  · intro m hm
    obtain ⟨ht, hc, hs, hl, hlen, -⟩ := hm
    have e1 : m.type % 256 = m.type := Nat.mod_eq_of_lt ht
    have e2 : m.camera_id % 256 = m.camera_id := Nat.mod_eq_of_lt hc
    have e3 : m.sequence / 256 % 256 * 256 + m.sequence % 256 = m.sequence := by omega
    have e4 : m.length / 256 % 256 * 256 + m.length % 256 = m.length := by omega
    have e5 : List.take m.length m.data = m.data := by
      rw [hlen]; exact List.take_length m.data
    simp only [ViscaMessage.serialize, ViscaMessage.deserialize, List.length_cons,
      List.getD_cons_succ, List.getD_cons_zero, List.drop_succ_cons, List.drop_zero]
    rw [e1, e2, e3, e4]
    rw [if_neg (by omega), if_neg (by omega), e5]
  · intro m hm
    obtain ⟨hst, hts, hname, -⟩ := hm
    have e1 : m.state % 256 = m.state := Nat.mod_eq_of_lt hst
    have e2 : m.ndi_source_name.length % 256 = m.ndi_source_name.length :=
      Nat.mod_eq_of_lt (by omega)
    have e3 : m.timestamp / 16777216 % 256 * 16777216 + m.timestamp / 65536 % 256 * 65536 +
        m.timestamp / 256 % 256 * 256 + m.timestamp % 256 = m.timestamp := by omega
    have e4 : List.take m.ndi_source_name.length m.ndi_source_name = m.ndi_source_name :=
      List.take_length m.ndi_source_name
    simp only [NdiTallyMessage.serialize, NdiTallyMessage.deserialize, List.length_cons,
      List.getD_cons_succ, List.getD_cons_zero, List.drop_succ_cons, List.drop_zero]
    rw [e1, e2, e3, e4]
    rw [if_neg (by omega), if_neg (by omega)]

/-- C2 witness: the round trip evaluated at a concrete VISCA command
message (camera 3, sequence 1, the 2-byte payload 81 FF) and at the S2
tally message (state Program, timestamp 1234567890, source name
"TestCam" as bytes). -/
theorem c2_codec_round_trip_witness :
    ((⟨1, 3, 1, 2, [0x81, 0xFF]⟩ : ViscaMessage).Valid ∧
      ViscaMessage.deserialize (ViscaMessage.serialize ⟨1, 3, 1, 2, [0x81, 0xFF]⟩) =
        .ok ⟨1, 3, 1, 2, [0x81, 0xFF]⟩) ∧
    ((⟨1, 1234567890, [0x54, 0x65, 0x73, 0x74, 0x43, 0x61, 0x6D]⟩ : NdiTallyMessage).Valid ∧
      NdiTallyMessage.deserialize
          (NdiTallyMessage.serialize ⟨1, 1234567890, [0x54, 0x65, 0x73, 0x74, 0x43, 0x61, 0x6D]⟩) =
        .ok ⟨1, 1234567890, [0x54, 0x65, 0x73, 0x74, 0x43, 0x61, 0x6D]⟩) :=
  ⟨⟨by decide, c2_codec_round_trip.1 _ (by decide)⟩,
   ⟨by decide, c2_codec_round_trip.2 _ (by decide)⟩⟩

/-- C6: any datagram whose first byte is neither 0x01 nor 0x02 is
rejected by the receive-side dispatch with the unknown-tag error,
whatever the remaining bytes are. -/
theorem c6_unknown_tag_rejected (tag : Nat) (rest : List Nat)
    (h1 : tag ≠ 1) (h2 : tag ≠ 2) :
    decode_frame (tag :: rest) = .error .unknownTag := by
  simp [decode_frame, h1, h2]

/-- C6 witness: the dispatch evaluated at the concrete two-byte datagram
03 AB. -/
theorem c6_unknown_tag_rejected_witness :
    (3 : Nat) ≠ 1 ∧ (3 : Nat) ≠ 2 ∧
      decode_frame [3, 0xAB] = .error .unknownTag :=
  ⟨by decide, by decide, c6_unknown_tag_rejected 3 [0xAB] (by decide) (by decide)⟩

/-- Reading an element below the cut of a prefix reads the underlying
list. -/
theorem getD_take_of_lt (l : List Nat) {i k : Nat} (h : i < k) :
    (l.take k).getD i 0 = l.getD i 0 := by
  simp [List.getD_eq_getElem?_getD, List.getElem?_take, h]

/-- The serialized VISCA frame is 7 header bytes plus the payload. -/
theorem length_visca_serialize (m : ViscaMessage) :
    m.serialize.length = m.data.length + 7 := by
  simp [ViscaMessage.serialize]

/-- The serialized NDI tally frame is 7 header bytes plus the name. -/
theorem length_ndi_serialize (m : NdiTallyMessage) :
    m.serialize.length = m.ndi_source_name.length + 7 := by
  simp [NdiTallyMessage.serialize]

/-- C9: codec truncation. For every valid message of either kind and
every proper prefix of its serialization, deserializing the prefix fails
with the truncation error: either the prefix is shorter than the 7-byte
fixed header, or it is shorter than 7 plus the declared payload/name
length. -/
theorem c9_codec_truncation :
    (∀ (m : ViscaMessage) (k : Nat), m.Valid → k < m.serialize.length →
      ViscaMessage.deserialize (m.serialize.take k) = .error .truncated) ∧
    (∀ (m : NdiTallyMessage) (k : Nat), m.Valid → k < m.serialize.length →
      NdiTallyMessage.deserialize (m.serialize.take k) = .error .truncated) := by
  constructor
  · intro m k hm hk
    obtain ⟨-, -, -, hl, hlen, -⟩ := hm
    rw [length_visca_serialize] at hk
    by_cases h7 : k < 7
    · rw [ViscaMessage.deserialize.eq_def, if_pos (by rw [List.length_take]; omega)]
    · have h1 : (m.serialize.take k).length = k := by
        rw [List.length_take, length_visca_serialize]; omega
      have h5 : m.serialize.getD 5 0 = m.length / 256 % 256 := by
        simp [ViscaMessage.serialize]
      have h6 : m.serialize.getD 6 0 = m.length % 256 := by
        simp [ViscaMessage.serialize]
      rw [ViscaMessage.deserialize.eq_def,
        getD_take_of_lt _ (show 5 < k by omega), getD_take_of_lt _ (show 6 < k by omega),
        h5, h6, h1, if_neg h7, if_pos (by omega)]
  · intro m k hm hk
    obtain ⟨-, -, hname, -⟩ := hm
    rw [length_ndi_serialize] at hk
    by_cases h7 : k < 7
    · rw [NdiTallyMessage.deserialize.eq_def, if_pos (by rw [List.length_take]; omega)]
    · have h1 : (m.serialize.take k).length = k := by
        rw [List.length_take, length_ndi_serialize]; omega
      have h2 : m.serialize.getD 2 0 = m.ndi_source_name.length % 256 := by
        simp [NdiTallyMessage.serialize]
      rw [NdiTallyMessage.deserialize.eq_def,
        getD_take_of_lt _ (show 2 < k by omega), h2, h1, if_neg h7, if_pos (by omega)]

/-- C9 witness: truncation evaluated at a 3-byte prefix of the
serialized concrete VISCA message of the round-trip witness, and at a
9-byte prefix of the serialized S2 tally message. -/
theorem c9_codec_truncation_witness :
    ((⟨1, 3, 1, 2, [0x81, 0xFF]⟩ : ViscaMessage).Valid ∧
      3 < (ViscaMessage.serialize ⟨1, 3, 1, 2, [0x81, 0xFF]⟩).length ∧
      ViscaMessage.deserialize ((ViscaMessage.serialize ⟨1, 3, 1, 2, [0x81, 0xFF]⟩).take 3) =
        .error .truncated) ∧
    ((⟨1, 1234567890, [0x54, 0x65, 0x73, 0x74, 0x43, 0x61, 0x6D]⟩ : NdiTallyMessage).Valid ∧
      9 < (NdiTallyMessage.serialize
        ⟨1, 1234567890, [0x54, 0x65, 0x73, 0x74, 0x43, 0x61, 0x6D]⟩).length ∧
      NdiTallyMessage.deserialize ((NdiTallyMessage.serialize
          ⟨1, 1234567890, [0x54, 0x65, 0x73, 0x74, 0x43, 0x61, 0x6D]⟩).take 9) =
        .error .truncated) :=
  ⟨⟨by decide, by decide, c9_codec_truncation.1 _ 3 (by decide) (by decide)⟩,
   ⟨by decide, by decide, c9_codec_truncation.2 _ 9 (by decide) (by decide)⟩⟩

/-- A concrete connected camera exercising the tally translator: the
three command sequences of the repository test file
(src/tests/test_ndi_tally.cpp lines 80-82), distinct and nonempty, both
enable flags set, current state Off. -/
def sampleCamera : ViscaCamera :=
  { connected := true
    ndi_mapping :=
      { ndi_source_name := [0x41]
        camera_id := 1
        tally_program_enabled := true
        tally_preview_enabled := true
        program_tally_command := [0x81, 0x01, 0x7E, 0x01, 0x0A, 0x00, 0x02, 0xFF]
        preview_tally_command := [0x81, 0x01, 0x7E, 0x01, 0x0A, 0x00, 0x01, 0xFF]
        tally_off_command := [0x81, 0x01, 0x7E, 0x01, 0x0A, 0x00, 0x03, 0xFF] }
    current_tally_state := .off
    last_tally_update := 0 }

/-- C3 counterexample: dispatching ProgramPreview to the concrete camera
(connected, current state Off, successful send) writes the off command
bytes to the socket, and those differ from the program command bytes the
claim states. -/
theorem c3_program_preview_counterexample :
    (update_tally_state sampleCamera .programPreview true 1).2.2 =
      some (.programPreview, sampleCamera.ndi_mapping.tally_off_command) ∧
    sampleCamera.ndi_mapping.tally_off_command ≠
      sampleCamera.ndi_mapping.program_tally_command := by
  decide

/-- C3 amended: when the translator dispatches a command for a camera
whose looked-up state is ProgramPreview (camera connected, state
changed, off command nonempty, send succeeds), the raw bytes sent to the
TCP socket are the off command bytes — ProgramPreview falls into the
`default:` branch of the switch; no distinct ProgramPreview sequence is
configurable. -/
theorem c3_program_preview_sends_off_command (cam : ViscaCamera) (now : Nat)
    (hconn : cam.connected = true)
    (hne : cam.current_tally_state ≠ .programPreview)
    (hcmd : cam.ndi_mapping.tally_off_command ≠ []) :
    (update_tally_state cam .programPreview true now).2.2 =
      some (.programPreview, cam.ndi_mapping.tally_off_command) := by
  have hne2 : TallyState.programPreview ≠ cam.current_tally_state := fun h => hne h.symm
  simp [update_tally_state, send_tally_command, tally_command_for, hconn, hcmd, hne2]

/-- C3 amended witness: evaluated at the concrete camera. -/
theorem c3_program_preview_sends_off_command_witness :
    sampleCamera.connected = true ∧
    sampleCamera.current_tally_state ≠ .programPreview ∧
    sampleCamera.ndi_mapping.tally_off_command ≠ [] ∧
    (update_tally_state sampleCamera .programPreview true 1).2.2 =
      some (.programPreview, sampleCamera.ndi_mapping.tally_off_command) :=
  ⟨by decide, by decide, by decide,
   c3_program_preview_sends_off_command sampleCamera 1 (by decide) (by decide) (by decide)⟩

/-- The concrete camera with the program enable flag cleared. -/
def sampleCameraProgramDisabled : ViscaCamera :=
  { sampleCamera with
    ndi_mapping := { sampleCamera.ndi_mapping with tally_program_enabled := false } }

/-- C4 counterexample: with tally_program_enabled = false, dispatching a
transition to Program on the connected concrete camera still writes the
nonempty program command bytes to the socket, contradicting the claim
that a disabled state suppresses the write. -/
theorem c4_enable_flag_counterexample :
    sampleCameraProgramDisabled.ndi_mapping.tally_program_enabled = false ∧
    sampleCameraProgramDisabled.ndi_mapping.program_tally_command ≠ [] ∧
    (update_tally_state sampleCameraProgramDisabled .program true 1).2.2 =
      some (.program, sampleCameraProgramDisabled.ndi_mapping.program_tally_command) := by
  decide

/-- C4 amended: the enable flags are never consulted. Dispatching any
tally transition behaves identically whatever the values of
tally_program_enabled and tally_preview_enabled: the same bytes are
written (or suppressed only for the reasons the source checks:
disconnection, empty command, unchanged state, failed send), the same
boolean is returned, and current_tally_state and last_tally_update
advance identically — the flags merely ride along unchanged in the
mapping. -/
theorem c4_enable_flags_ignored (cam : ViscaCamera) (s : TallyState)
    (ok : Bool) (now : Nat) (b1 b2 : Bool) :
    update_tally_state
        { cam with ndi_mapping :=
          { cam.ndi_mapping with tally_program_enabled := b1, tally_preview_enabled := b2 } }
        s ok now =
      (fun r => ({ r.1 with ndi_mapping :=
          { r.1.ndi_mapping with tally_program_enabled := b1, tally_preview_enabled := b2 } },
        r.2)) (update_tally_state cam s ok now) := by
  have hcmd : tally_command_for
      { cam.ndi_mapping with tally_program_enabled := b1, tally_preview_enabled := b2 } s =
      tally_command_for cam.ndi_mapping s := by
    cases s <;> rfl
  simp only [update_tally_state, send_tally_command, hcmd]
  by_cases h1 : s ≠ cam.current_tally_state <;>
    by_cases h2 : cam.connected <;>
      by_cases h3 : tally_command_for cam.ndi_mapping s = [] <;>
        cases ok <;> simp [h1, h2, h3]

/-- One dispatch step leaves current_tally_state at the state of the
successful write it performed, or untouched when no write succeeded. -/
theorem update_tally_state_write_state (cam : ViscaCamera) (s : TallyState)
    (ok : Bool) (now : Nat) :
    (update_tally_state cam s ok now).1.current_tally_state =
      match (update_tally_state cam s ok now).2.2 with
      | some (st, _) => st
      | none => cam.current_tally_state := by
  by_cases h1 : s ≠ cam.current_tally_state <;>
    by_cases h2 : cam.connected <;>
      by_cases h3 : tally_command_for cam.ndi_mapping s = [] <;>
        cases ok <;> simp [update_tally_state, send_tally_command, h1, h2, h3]

/-- C7: current_tally invariant. After any sequence of tally
dispatches against a camera, current_tally_state equals the state of the
last successful socket write of the sequence (and the starting state when
no write succeeded): the state is advanced only by a successful write,
never to a pending or failed value. -/
theorem c7_current_tally_last_successful (cam : ViscaCamera)
    (events : List (TallyState × Bool × Nat)) :
    (run_tally cam events).1.current_tally_state =
      last_sent_state (run_tally cam events).2 cam.current_tally_state := by
  induction events generalizing cam with
  | nil => rfl
  | cons e rest ih =>
    obtain ⟨s, ok, now⟩ := e
    have hw := update_tally_state_write_state cam s ok now
    show (run_tally (update_tally_state cam s ok now).1 rest).1.current_tally_state =
      last_sent_state ((update_tally_state cam s ok now).2.2 ::
        (run_tally (update_tally_state cam s ok now).1 rest).2) cam.current_tally_state
    rw [ih]
    rcases h : (update_tally_state cam s ok now).2.2 with - | ⟨st, bytes⟩ <;>
      rw [h] at hw <;> simp only [last_sent_state] <;> rw [hw]

/-- C10: tally send atomicity on failure. Whenever the camera is
disconnected, or the command the switch selects for the target state is
empty, or the TCP send fails, send_tally_command returns false and
leaves both current_tally_state and last_tally_update unchanged. -/
theorem c10_send_tally_failure_atomic (cam : ViscaCamera) (s : TallyState)
    (ok : Bool) (now : Nat)
    (h : cam.connected = false ∨ tally_command_for cam.ndi_mapping s = [] ∨ ok = false) :
    (send_tally_command cam s ok now).2.1 = false ∧
    (send_tally_command cam s ok now).1.current_tally_state = cam.current_tally_state ∧
    (send_tally_command cam s ok now).1.last_tally_update = cam.last_tally_update := by
  by_cases h2 : cam.connected <;>
    by_cases h3 : tally_command_for cam.ndi_mapping s = [] <;>
      cases ok <;> simp_all [send_tally_command]

/-- C10 witness: evaluated at the concrete camera with a failing send. -/
theorem c10_send_tally_failure_atomic_witness :
    (sampleCamera.connected = false ∨
      tally_command_for sampleCamera.ndi_mapping .program = [] ∨ false = false) ∧
    (send_tally_command sampleCamera .program false 1).2.1 = false ∧
    (send_tally_command sampleCamera .program false 1).1.current_tally_state =
      sampleCamera.current_tally_state ∧
    (send_tally_command sampleCamera .program false 1).1.last_tally_update =
      sampleCamera.last_tally_update :=
  ⟨Or.inr (Or.inr rfl),
   c10_send_tally_failure_atomic sampleCamera .program false 1 (Or.inr (Or.inr rfl))⟩

/-- C5 counterexample: the claimed discipline — every nested acquisition
sequence in the server strictly follows the order cameras, tally_table,
queues — is false: `handle_ndi_tally` acquires the tally_table mutex and
then, while holding it, the cameras mutex. -/
theorem c5_lock_order_counterexample :
    ¬ ∀ p ∈ server_lock_paths,
      List.Chain' (fun a b => spec_lock_rank a < spec_lock_rank b) p := by
  intro h
  have hpath := h [.tallyTable, .cameras] (by simp [server_lock_paths])
  simp [List.chain'_cons, spec_lock_rank] at hpath

/-- C5 amended: every nested acquisition sequence in the server strictly
follows the order tally_table, cameras, queues — the inverse of the
documented cameras, tally_table pair. In particular no two paths acquire
a pair of these mutexes in opposite orders, so the source is still free
of lock-order cycles, but `handle_ndi_tally` does hold the tally_table
mutex while acquiring the cameras mutex. -/
theorem c5_lock_order_source :
    ∀ p ∈ server_lock_paths,
      List.Chain' (fun a b => source_lock_rank a < source_lock_rank b) p := by
  intro p hp
  simp only [server_lock_paths, List.mem_cons, List.not_mem_nil, or_false] at hp
  rcases hp with rfl | rfl | rfl | rfl | rfl | rfl | rfl <;>
    norm_num [List.chain'_cons, List.chain'_singleton, source_lock_rank]

/-- C5 amended witness: the acquisition sequence of `handle_ndi_tally`
is in the list of server paths and respects the source order. -/
theorem c5_lock_order_source_witness :
    [ServerLock.tallyTable, ServerLock.cameras] ∈ server_lock_paths ∧
    List.Chain' (fun a b => source_lock_rank a < source_lock_rank b)
      [ServerLock.tallyTable, ServerLock.cameras] :=
  ⟨by decide, c5_lock_order_source _ (by decide)⟩

/-- C8: sequence correlation. Every response frame
`process_visca_message` sends for a Command or Inquiry request carries
type Response (0x02), the camera id of the request, and the sequence of
the request; and every asynchronous camera-originated message
`monitor_cameras` queues carries sequence zero. -/
theorem c8_sequence_correlation :
    (∀ (msg : ViscaMessage) (found connected send_ok : Bool) (reply : List Nat)
      (r : ViscaMessage),
      process_visca_message msg found connected send_ok reply = some r →
        r.type = 2 ∧ r.camera_id = msg.camera_id ∧ r.sequence = msg.sequence) ∧
    (∀ (cid : Nat) (bytes : List Nat), (monitor_cameras_frame cid bytes).sequence = 0) := by
  constructor
  · intro msg found connected send_ok reply r h
    simp only [process_visca_message] at h
    split at h
    · split at h
      · exact absurd h (by simp)
      · split at h
        · split at h
          · rw [Option.some_inj] at h
            subst h
            exact ⟨rfl, rfl, rfl⟩
          · exact absurd h (by simp)
        · exact absurd h (by simp)
    · exact absurd h (by simp)
  · intro cid bytes
    rfl

/-- C8 witness: a Command request for camera 3 with sequence 7 answered
with the 3-byte ack 90 41 FF yields a frame with type Response, camera 3,
sequence 7; and a concrete asynchronous frame carries sequence 0. -/
theorem c8_sequence_correlation_witness :
    (process_visca_message ⟨1, 3, 7, 3, [0x81, 0xFF]⟩ true true true [0x90, 0x41, 0xFF] =
      some ⟨2, 3, 7, 3, [0x90, 0x41, 0xFF]⟩ ∧
      (2 : Nat) = 2 ∧ (3 : Nat) = 3 ∧ (7 : Nat) = 7) ∧
    (monitor_cameras_frame 2 [0x90, 0x41, 0xFF]).sequence = 0 :=
  ⟨⟨by decide,
    c8_sequence_correlation.1 ⟨1, 3, 7, 3, [0x81, 0xFF]⟩ true true true
      [0x90, 0x41, 0xFF] ⟨2, 3, 7, 3, [0x90, 0x41, 0xFF]⟩ (by decide)⟩,
   c8_sequence_correlation.2 2 [0x90, 0x41, 0xFF]⟩

end ViscaSrt
